import Mathlib

/-!
Verification of the MangaDesk meeting-summarizer core: a shallow embedding of
`src/server/routes.ts` (the POST /api/summaries provider chain, the
PATCH /api/summaries/:id editor, and the POST /api/email/send dispatcher) and
`src/server/storage.ts` (the in-memory record store), together with theorems
settling the spec's claims about them.

JavaScript conventions are made explicit: absent-or-string values are
`Option String`, and JS truthiness of such a value (`if (x)`, `x || y`,
`!x`) is falsity exactly on "absent" and the empty string.
-/

/-- JS truthiness of a `string | undefined | null` value: truthy iff present
and non-empty. -/
def jsTruthy : Option String → Bool
  | some s => s ≠ ""
  | none => false

/-- JS `a || b` for a plain string `a`: `b` when `a` is empty. -/
def strOr (a b : String) : String :=
  if a = "" then b else a

/-- JS `a || b` where `a : string | undefined | null` and `b` is a string. -/
def jsOr (a : Option String) (b : String) : String :=
  match a with
  | some s => strOr s b
  | none => b

/-- JS `a || b` on two `string | undefined` environment values, keeping the
option (used for `GROQ_API_KEY || VITE_GROQ_API_KEY`). -/
def jsOrOpt (a b : Option String) : Option String :=
  if jsTruthy a then a else b

/-! ## A model of `JSON.parse`

The email route runs `JSON.parse(emailData.recipients)`; a throw is caught by
the route's catch-all. We model the JSON grammar (null, booleans, numbers,
strings with the common escapes, arrays, objects; `\u` escapes are out of
scope) with a fuel-indexed recursive-descent reader; `none` models a throw. -/

/-- A parsed JSON value. Numbers keep their source text: no route inspects
numeric values, only array-ness and length. -/
inductive JsValue where
  | jnull : JsValue
  | jbool : Bool → JsValue
  | jnum : String → JsValue
  | jstr : String → JsValue
  | jarr : List JsValue → JsValue
  | jobj : List (String × JsValue) → JsValue

/-- JSON whitespace. -/
def isJsonWs (c : Char) : Bool :=
  c ∈ [' ', '\n', '\t', '\r']

/-- Drop leading JSON whitespace. -/
def skipWs (cs : List Char) : List Char :=
  cs.dropWhile isJsonWs

/-- Translate a JSON string escape character. -/
def escChar : Char → Option Char
  | 'n' => some '\n'
  | 't' => some '\t'
  | 'r' => some '\r'
  | 'b' => some (Char.ofNat 0x08)
  | 'f' => some (Char.ofNat 0x0c)
  | '"' => some '"'
  | '/' => some '/'
  | '\\' => some '\\'
  | _ => none

/-- Read the body of a JSON string after the opening quote, up to and
including the closing quote. -/
def readStrBody : List Char → Option (String × List Char)
  | [] => none
  | '"' :: rest => some ("", rest)
  | '\\' :: c :: rest => do
      let e ← escChar c
      let (s, r) ← readStrBody rest
      pure (String.mk (e :: s.data), r)
  | '\\' :: [] => none
  | c :: rest => do
      let (s, r) ← readStrBody rest
      pure (String.mk (c :: s.data), r)

/-- Consume a maximal run of decimal digits. -/
def takeDigits (cs : List Char) : List Char × List Char :=
  cs.span Char.isDigit

/-- Read a JSON number (sign, integer part, optional fraction and exponent),
returning its source text. -/
def readNum (cs : List Char) : Option (String × List Char) := do
  let (sign, cs1) :=
    match cs with
    | '-' :: r => (['-'], r)
    | _ => ([], cs)
  let (ip, cs2) := takeDigits cs1
  if ip = [] then none else
  let (fp, cs3) :=
    match cs2 with
    | '.' :: r =>
      let (d, r2) := takeDigits r
      if d = [] then ([], '.' :: r) else ('.' :: d, r2)
    | _ => ([], cs2)
  if fp = [] && (match cs2 with | '.' :: _ => true | _ => false) then none else
  let (ep, cs4) :=
    match cs3 with
    | 'e' :: r => (some ('e', r), cs3)
    | 'E' :: r => (some ('E', r), cs3)
    | _ => (none, cs3)
  match ep with
  | none => pure (String.mk (sign ++ ip ++ fp), cs4)
  | some (e, r) =>
    let (es, r1) :=
      match r with
      | '+' :: r2 => (['+'], r2)
      | '-' :: r2 => (['-'], r2)
      | _ => ([], r)
    let (ed, r2) := takeDigits r1
    if ed = [] then none
    else pure (String.mk (sign ++ ip ++ fp ++ [e] ++ es ++ ed), r2)

mutual

/-- Read one JSON value. -/
def readValue : Nat → List Char → Option (JsValue × List Char)
  | 0, _ => none
  | Nat.succ fuel, cs =>
    match skipWs cs with
    | [] => none
    | 'n' :: 'u' :: 'l' :: 'l' :: rest => some (JsValue.jnull, rest)
    | 't' :: 'r' :: 'u' :: 'e' :: rest => some (JsValue.jbool true, rest)
    | 'f' :: 'a' :: 'l' :: 's' :: 'e' :: rest => some (JsValue.jbool false, rest)
    | '"' :: rest =>
      match readStrBody rest with
      | some (s, r) => some (JsValue.jstr s, r)
      | none => none
    | '[' :: rest =>
      match readArrTail fuel rest true with
      | some (vs, r) => some (JsValue.jarr vs, r)
      | none => none
    | '{' :: rest =>
      match readObjTail fuel rest true with
      | some (fs, r) => some (JsValue.jobj fs, r)
      | none => none
    | c :: rest =>
      if c = '-' || c.isDigit then
        match readNum (c :: rest) with
        | some (s, r) => some (JsValue.jnum s, r)
        | none => none
      else none

/-- Read the elements of a JSON array after `[`, including the closing `]`.
`first` is true when no element has been read yet. -/
def readArrTail : Nat → List Char → Bool → Option (List JsValue × List Char)
  | 0, _, _ => none
  | Nat.succ fuel, cs, first =>
    match skipWs cs with
    | ']' :: rest => if first then some ([], rest) else none
    | cs1 =>
      match readValue fuel cs1 with
      | none => none
      | some (v, rest) =>
        match skipWs rest with
        | ',' :: rest2 =>
          match readArrTail fuel rest2 false with
          | some (vs, r) => some (v :: vs, r)
          | none => none
        | ']' :: rest2 => some ([v], rest2)
        | _ => none

/-- Read the members of a JSON object after `{`, including the closing `}`. -/
def readObjTail : Nat → List Char → Bool → Option (List (String × JsValue) × List Char)
  | 0, _, _ => none
  | Nat.succ fuel, cs, first =>
    match skipWs cs with
    | '}' :: rest => if first then some ([], rest) else none
    | '"' :: rest =>
      match readStrBody rest with
      | none => none
      | some (k, rest1) =>
        match skipWs rest1 with
        | ':' :: rest2 =>
          match readValue fuel rest2 with
          | none => none
          | some (v, rest3) =>
            match skipWs rest3 with
            | ',' :: rest4 =>
              match readObjTail fuel rest4 false with
              | some (fs, r) => some ((k, v) :: fs, r)
              | none => none
            | '}' :: rest4 => some ([(k, v)], rest4)
            | _ => none
        | _ => none
    | _ => none

end

/-- Model of `JSON.parse`: `none` models a thrown `SyntaxError`. -/
def jsonParse (s : String) : Option JsValue :=
  match readValue (2 * s.length + 2) s.data with
  | some (v, rest) => if skipWs rest = [] then some v else none
  | none => none

/-! ## Data model (`shared/schema` shapes, `src/server/storage.ts`)

Identifier generation (`randomUUID`) and clock reads (`new Date()`) are
nondeterministic in the source; each creating operation takes the fresh id
and the timestamp as explicit arguments. Timestamps are `Nat`. -/

/-- A stored transcript (see `storage.ts` `createTranscript`): `filename` is
`string | null`. -/
structure Transcript where
  id : String
  content : String
  filename : Option String
  createdAt : Nat
deriving Repr, DecidableEq

/-- A stored summary (see `storage.ts` `createSummary`): `editedContent` is
`string | null`, `null` at creation. -/
structure Summary where
  id : String
  transcriptId : String
  prompt : String
  content : String
  editedContent : Option String
  createdAt : Nat
deriving Repr, DecidableEq

/-- A stored email-share record (see `storage.ts` `createEmailShare`). -/
structure EmailShare where
  id : String
  summaryId : String
  recipients : String
  subject : String
  message : Option String
  includeTranscript : Option Bool
  sentAt : Nat
deriving Repr, DecidableEq

/-- Modelled from the spec: the parsed shape of `insertTranscriptSchema`
(`shared/schema` is not among the sources) — `content` required, `filename`
optional, per §3 and §6 of the spec and the uses in `routes.ts`. -/
structure InsertTranscript where
  content : String
  filename : Option String

/-- The insert shape for summaries as built at `routes.ts` line 255. -/
structure InsertSummary where
  transcriptId : String
  prompt : String
  content : String

/-- Modelled from the spec: the parsed shape of `insertEmailShareSchema`
(`shared/schema` is not among the sources) — `summaryId`, `recipients`
(a JSON-encoded string), `subject` required; `message` and
`includeTranscript` optional, per §6 of the spec and the uses in
`routes.ts` and `storage.ts`. -/
structure InsertEmailShare where
  summaryId : String
  recipients : String
  subject : String
  message : Option String
  includeTranscript : Option Bool

/-- Association-list lookup, modelling `Map.get`. -/
def findById {α : Type} : List (String × α) → String → Option α
  | [], _ => none
  | (k, v) :: rest, key => if k = key then some v else findById rest key

/-- Association-list insert-or-replace, modelling `Map.set` (JS `Map`
preserves the position of an existing key and appends a new one). -/
def mapSet {α : Type} : List (String × α) → String → α → List (String × α)
  | [], key, v => [(key, v)]
  | (k, w) :: rest, key, v =>
    if k = key then (key, v) :: rest else (k, w) :: mapSet rest key v

/-- The in-memory store (`MemStorage` in `storage.ts`): three maps. -/
structure MemStorage where
  transcripts : List (String × Transcript)
  summaries : List (String × Summary)
  emailShares : List (String × EmailShare)

/-- The empty store (`MemStorage`'s constructor). -/
def MemStorage.empty : MemStorage := ⟨[], [], []⟩

/-- Embeds `MemStorage.createTranscript`. -/
def MemStorage.createTranscript (s : MemStorage) (freshId : String) (now : Nat)
    (ins : InsertTranscript) : Transcript × MemStorage :=
  let transcript : Transcript :=
    { id := freshId
      content := ins.content
      filename := ins.filename
      createdAt := now }
  (transcript, { s with transcripts := mapSet s.transcripts freshId transcript })

/-- Embeds `MemStorage.getTranscript`. -/
def MemStorage.getTranscript (s : MemStorage) (id : String) : Option Transcript :=
  findById s.transcripts id

/-- Embeds `MemStorage.createSummary`: `content: insertSummary.content || ""`,
`editedContent: null`. -/
def MemStorage.createSummary (s : MemStorage) (freshId : String) (now : Nat)
    (ins : InsertSummary) : Summary × MemStorage :=
  let summary : Summary :=
    { transcriptId := ins.transcriptId
      prompt := ins.prompt
      content := strOr ins.content ""
      id := freshId
      editedContent := none
      createdAt := now }
  (summary, { s with summaries := mapSet s.summaries freshId summary })

/-- Embeds `MemStorage.getSummary`. -/
def MemStorage.getSummary (s : MemStorage) (id : String) : Option Summary :=
  findById s.summaries id

/-- Embeds `MemStorage.updateSummaryContent`: replaces `editedContent` on the stored
copy, returns `undefined` for an unknown id. -/
def MemStorage.updateSummaryContent (s : MemStorage) (id : String)
    (editedContent : String) : Option Summary × MemStorage :=
  match findById s.summaries id with
  | some summary =>
    let updatedSummary := { summary with editedContent := some editedContent }
    (some updatedSummary, { s with summaries := mapSet s.summaries id updatedSummary })
  | none => (none, s)

/-- Embeds `MemStorage.createEmailShare`: `message ?? null`,
`includeTranscript ?? null`. -/
def MemStorage.createEmailShare (s : MemStorage) (freshId : String) (now : Nat)
    (ins : InsertEmailShare) : EmailShare × MemStorage :=
  let emailShare : EmailShare :=
    { id := freshId
      summaryId := ins.summaryId
      recipients := ins.recipients
      subject := ins.subject
      message := ins.message
      includeTranscript := ins.includeTranscript
      sentAt := now }
  (emailShare, { s with emailShares := mapSet s.emailShares freshId emailShare })

/-! ## The AI provider chain (`routes.ts` lines 117-243)

Each provider's network interaction is an oracle argument: HTTP 2xx with the
text field the route extracts from the response JSON (which may be absent),
a non-2xx response with its error text, or a thrown exception. -/

/-- The three AI backends, in the source's priority order. -/
inductive Provider where
  | gemini
  | openai
  | groq
deriving Repr, DecidableEq

/-- Outcome of one provider fetch, as the route observes it. `ok t` is a 2xx
response whose extracted text field is `t` (`none` when the field is absent
from the body). -/
inductive ProviderResponse where
  | ok : Option String → ProviderResponse
  | httpError : String → ProviderResponse
  | exn : String → ProviderResponse
deriving Repr, DecidableEq

/-- The environment variables the summaries route reads. -/
structure Env where
  googleApiKey : Option String
  openaiApiKey : Option String
  groqApiKey : Option String
  viteGroqApiKey : Option String

/-- The Groq credential: `process.env.GROQ_API_KEY || process.env.VITE_GROQ_API_KEY`. -/
def Env.groqEffective (env : Env) : Option String :=
  jsOrOpt env.groqApiKey env.viteGroqApiKey

/-- State of the chain after the three provider blocks: the `aiSummary` and
`apiUsed` variables, plus the list of providers actually fetched, in call
order. -/
structure ChainResult where
  aiSummary : Option String
  apiUsed : String
  calls : List Provider
deriving Repr, DecidableEq

/-- The first chain block (`routes.ts` lines 125-163): runs when
`googleApiKey` is truthy. A 2xx response assigns both `aiSummary` (the
extracted text, possibly `undefined`) and `apiUsed := 'Google Gemini'`; an
error or exception leaves both variables at their initial values. -/
def chainGemini (env : Env) (respG : ProviderResponse) : ChainResult :=
  if jsTruthy env.googleApiKey then
    match respG with
    | ProviderResponse.ok t =>
      { aiSummary := t, apiUsed := "Google Gemini", calls := [Provider.gemini] }
    | _ => { aiSummary := none, apiUsed := "", calls := [Provider.gemini] }
  else { aiSummary := none, apiUsed := "", calls := [] }

/-- The second chain block (`routes.ts` lines 165-203): runs when `aiSummary`
is still falsy and `openaiApiKey` is truthy. -/
def chainOpenai (env : Env) (respG respO : ProviderResponse) : ChainResult :=
  let r1 := chainGemini env respG
  if !jsTruthy r1.aiSummary && jsTruthy env.openaiApiKey then
    match respO with
    | ProviderResponse.ok t =>
      { aiSummary := t, apiUsed := "OpenAI", calls := r1.calls ++ [Provider.openai] }
    | _ => { r1 with calls := r1.calls ++ [Provider.openai] }
  else r1

/-- The whole provider chain of the POST /api/summaries handler, ending with
the Groq block (`routes.ts` lines 205-243). -/
def runChain (env : Env) (respG respO respQ : ProviderResponse) : ChainResult :=
  let r2 := chainOpenai env respG respO
  if !jsTruthy r2.aiSummary && jsTruthy env.groqEffective then
    match respQ with
    | ProviderResponse.ok t =>
      { aiSummary := t, apiUsed := "Groq", calls := r2.calls ++ [Provider.groq] }
    | _ => { r2 with calls := r2.calls ++ [Provider.groq] }
  else r2

/-! ## Route handlers (`routes.ts`) -/

/-- An HTTP route outcome: `ok` is `res.json(value)`, `err status message` is
`res.status(status).json({ message })`. -/
inductive ApiResult (α : Type) where
  | ok : α → ApiResult α
  | err : Nat → String → ApiResult α
deriving Repr, DecidableEq

/-- The body of POST /api/summaries: each field is absent or a string (the
handler only ever tests truthiness and passes the values on). -/
structure SummariesRequestBody where
  transcriptId : Option String
  prompt : Option String

/-- Everything the POST /api/summaries handler produces: the HTTP response,
the store afterwards, and the providers fetched, in order. -/
structure SummariesOutcome where
  response : ApiResult Summary
  store : MemStorage
  calls : List Provider

/-- The POST /api/summaries handler (`routes.ts` lines 97-270): field guards,
transcript lookup, provider chain, no-key guard, no-text guard, persist. -/
def postSummaries (env : Env) (store : MemStorage) (body : SummariesRequestBody)
    (respG respO respQ : ProviderResponse) (freshId : String) (now : Nat) :
    SummariesOutcome :=
  if !jsTruthy body.transcriptId then
    ⟨ApiResult.err 400 "transcriptId is required", store, []⟩
  else if !jsTruthy body.prompt then
    ⟨ApiResult.err 400 "prompt is required", store, []⟩
  else
    let transcriptId := body.transcriptId.getD ""
    let prompt := body.prompt.getD ""
    match store.getTranscript transcriptId with
    | none => ⟨ApiResult.err 404 "Transcript not found", store, []⟩
    | some _transcript =>
      let chain := runChain env respG respO respQ
      if !jsTruthy env.googleApiKey && !jsTruthy env.openaiApiKey
          && !jsTruthy env.groqEffective then
        ⟨ApiResult.err 500
          "No AI API key configured (GOOGLE_API_KEY, OPENAI_API_KEY, or GROQ_API_KEY required)",
          store, chain.calls⟩
      else if !jsTruthy chain.aiSummary then
        ⟨ApiResult.err 500 "Failed to generate summary with available AI services",
          store, chain.calls⟩
      else
        let result := store.createSummary freshId now
          { transcriptId := transcriptId
            prompt := prompt
            content := chain.aiSummary.getD "" }
        ⟨ApiResult.ok result.fst, result.snd, chain.calls⟩

/-- The `editedContent` field of the PATCH body as JavaScript sees it: a
string, or some value of another type (`typeof editedContent !== 'string'`). -/
inductive PatchField where
  | strVal : String → PatchField
  | nonString : PatchField
deriving Repr, DecidableEq

/-- The PATCH /api/summaries/:id handler (`routes.ts` lines 273-291). -/
def patchSummaries (store : MemStorage) (id : String) (editedContent : PatchField) :
    ApiResult Summary × MemStorage :=
  match editedContent with
  | PatchField.nonString => (ApiResult.err 400 "editedContent must be a string", store)
  | PatchField.strVal s =>
    match store.updateSummaryContent id s with
    | (some summary, store2) => (ApiResult.ok summary, store2)
    | (none, store2) => (ApiResult.err 404 "Summary not found", store2)

/-- The GET /api/summaries/:id handler (`routes.ts` lines 352-365). -/
def getSummaryRoute (store : MemStorage) (id : String) : ApiResult Summary :=
  match store.getSummary id with
  | some summary => ApiResult.ok summary
  | none => ApiResult.err 404 "Summary not found"

/-- An attachment as handed to the mail API. -/
structure Attachment where
  filename : String
  content : String
  type : String
deriving Repr, DecidableEq

/-- The composed mail-API call: recipients as parsed, subject, text body,
attachments. -/
structure SentEmail where
  sendTo : JsValue
  subject : String
  text : String
  attachments : List Attachment

/-- Observable events of one email-route execution, in order: a call to the
mail provider, and the persisting of an EmailShare record. -/
inductive Ev where
  | mailSend : SentEmail → Ev
  | persistShare : String → Ev

/-- Everything the POST /api/email/send handler produces. -/
structure EmailOutcome where
  response : ApiResult EmailShare
  store : MemStorage
  events : List Ev

/-- The effective summary content used in the email body:
`summary.editedContent || summary.content` (`routes.ts` line 312). -/
def effectiveContent (summary : Summary) : String :=
  jsOr summary.editedContent summary.content

/-- The POST /api/email/send handler (`routes.ts` lines 294-349). The mail
provider's verdict is an oracle: `none` for a successful send, `some msg` for
an error response with message `msg` (a thrown `JSON.parse` is modelled by
`jsonParse` returning `none` and lands in the catch-all as a 500). -/
def postEmailSend (store : MemStorage) (body : InsertEmailShare)
    (mailError : Option String) (freshId : String) (now : Nat) : EmailOutcome :=
  match store.getSummary body.summaryId with
  | none => ⟨ApiResult.err 404 "Summary not found", store, []⟩
  | some summary =>
    match store.getTranscript summary.transcriptId with
    | none => ⟨ApiResult.err 404 "Transcript not found", store, []⟩
    | some transcript =>
      match jsonParse body.recipients with
      | none => ⟨ApiResult.err 500 "Failed to send email", store, []⟩
      | some recipients =>
        if !(match recipients with | JsValue.jarr _ => true | _ => false)
            || (match recipients with | JsValue.jarr vs => vs.length | _ => 0) == 0 then
          ⟨ApiResult.err 400 "Invalid recipients", store, []⟩
        else
          let summaryContent := effectiveContent summary
          let emailBody :=
            (if jsTruthy body.message then body.message.getD "" ++ "\n\n---\n\n" else "")
              ++ "MEETING SUMMARY\n\n" ++ summaryContent
          let attachments :=
            if body.includeTranscript.getD false && transcript.content != "" then
              [{ filename := jsOr transcript.filename "transcript.txt"
                 content := transcript.content
                 type := "text/plain" : Attachment }]
            else []
          let sent : SentEmail :=
            { sendTo := recipients
              subject := body.subject
              text := emailBody
              attachments := attachments }
          match mailError with
          | some errMsg =>
            ⟨ApiResult.err 500 ("Resend error: " ++ errMsg), store, [Ev.mailSend sent]⟩
          | none =>
            let result := store.createEmailShare freshId now body
            ⟨ApiResult.ok result.fst, result.snd,
              [Ev.mailSend sent, Ev.persistShare freshId]⟩

/-! ## Derived notions used in statements -/

/-- The non-empty text that a provider attempt would contribute: requires the
credential to be truthy, a 2xx response, and a present, non-empty text field.
An absent or empty text gives `none` — failure. -/
def hitOf (key : Option String) (r : ProviderResponse) : Option String :=
  if jsTruthy key then
    match r with
    | ProviderResponse.ok (some t) => if t = "" then none else some t
    | _ => none
  else none

/-- The first configured provider that returns a non-empty text, with its
display name and that text, in the source's priority order. -/
def firstHit (env : Env) (rG rO rQ : ProviderResponse) : Option (String × String) :=
  match hitOf env.googleApiKey rG with
  | some t => some ("Google Gemini", t)
  | none =>
    match hitOf env.openaiApiKey rO with
    | some t => some ("OpenAI", t)
    | none =>
      match hitOf env.groqEffective rQ with
      | some t => some ("Groq", t)
      | none => none

/-- The credential a given provider is gated on. -/
def credentialOf (env : Env) : Provider → Option String
  | Provider.gemini => env.googleApiKey
  | Provider.openai => env.openaiApiKey
  | Provider.groq => env.groqEffective

/-- The recipients check of the email route, in positive form:
`Array.isArray(recipients) && recipients.length !== 0`. -/
def isNonEmptyArray : JsValue → Bool
  | JsValue.jarr vs => vs.length != 0
  | _ => false

/-- Is this event a call to the mail provider? -/
def isMailSend : Ev → Bool
  | Ev.mailSend _ => true
  | _ => false

/-- How many mail-provider calls an execution made. -/
def mailCallCount (events : List Ev) : Nat :=
  (events.filter isMailSend).length

/-- Does `sub` occur at the start of `hay`? (Character-list version.) -/
def charsStartWith : List Char → List Char → Bool
  | [], _ => true
  | _ :: _, [] => false
  | a :: as, b :: bs => a = b && charsStartWith as bs

/-- Does `sub` occur anywhere in `hay`? (Character-list version.) -/
def charsContain (hay sub : List Char) : Bool :=
  charsStartWith sub hay ||
    match hay with
    | [] => false
    | _ :: t => charsContain t sub

/-- Substring occurrence on strings, used to state that an error message does
or does not carry a given piece of text. -/
def strContains (hay sub : String) : Bool :=
  charsContain hay.data sub.data

/-! ## Shared lemmas -/

/-- Setting then getting the same key yields the stored value. -/
theorem findById_mapSet_self {α : Type} (m : List (String × α)) (k : String) (v : α) :
    findById (mapSet m k v) k = some v := by
  induction m with
  | nil => simp [mapSet, findById]
  | cons hd tl ih =>
    rcases hd with ⟨k2, v2⟩
    by_cases h : k2 = k <;> simp [mapSet, findById, h, ih]

/-- A successful `hitOf` forces its credential to be configured. -/
theorem jsTruthy_of_hitOf_some {key : Option String} {r : ProviderResponse}
    {t : String} (h : hitOf key r = some t) : jsTruthy key = true := by
  unfold hitOf at h
  by_cases hk : jsTruthy key
  · exact hk
  · simp [hk] at h

/-- If any configured provider has a non-empty text, the priority scan finds
one. -/
theorem firstHit_isSome_of_any (env : Env) (rG rO rQ : ProviderResponse)
    (h : (hitOf env.googleApiKey rG).isSome ∨ (hitOf env.openaiApiKey rO).isSome
      ∨ (hitOf env.groqEffective rQ).isSome) :
    (firstHit env rG rO rQ).isSome := by
  unfold firstHit
  cases h1 : hitOf env.googleApiKey rG <;>
    cases h2 : hitOf env.openaiApiKey rO <;>
      cases h3 : hitOf env.groqEffective rQ <;>
        simp_all

/-- A found `firstHit` forces at least one credential to be configured. -/
theorem anyKey_of_firstHit_some {env : Env} {rG rO rQ : ProviderResponse}
    {nt : String × String} (h : firstHit env rG rO rQ = some nt) :
    (jsTruthy env.googleApiKey || jsTruthy env.openaiApiKey
      || jsTruthy env.groqEffective) = true := by
  unfold firstHit at h
  cases h1 : hitOf env.googleApiKey rG with
  | some t => simp [jsTruthy_of_hitOf_some h1]
  | none =>
    cases h2 : hitOf env.openaiApiKey rO with
    | some t => simp [jsTruthy_of_hitOf_some h2]
    | none =>
      cases h3 : hitOf env.groqEffective rQ with
      | some t => simp [jsTruthy_of_hitOf_some h3]
      | none => simp [h1, h2, h3] at h

/-- Truthiness of an absent value. -/
@[simp] theorem jsTruthy_none : jsTruthy none = false := rfl

/-- Truthiness of the empty string. -/
@[simp] theorem jsTruthy_some_empty : jsTruthy (some "") = false := rfl

/-- Truthiness of a present non-empty string. -/
theorem jsTruthy_some_ne {s : String} (h : s ≠ "") : jsTruthy (some s) = true := by
  simp [jsTruthy, h]

/-- A `hitOf` text is never empty. -/
theorem hitOf_ne_empty {key : Option String} {r : ProviderResponse} {t : String}
    (h : hitOf key r = some t) : t ≠ "" := by
  unfold hitOf at h
  by_cases hk : jsTruthy key
  · rcases r with u | e | e
    · rcases u with _ | u
      · simp [hk] at h
      · by_cases hu : u = "" <;> simp [hk, hu] at h
        subst h; exact hu
    · simp [hk] at h
    · simp [hk] at h
  · simp [hk] at h

/-- The Gemini block on a configured, non-empty success. -/
theorem chainGemini_hit {env : Env} {rG : ProviderResponse} {t : String}
    (h : hitOf env.googleApiKey rG = some t) :
    chainGemini env rG = ⟨some t, "Google Gemini", [Provider.gemini]⟩ := by
  have hk := jsTruthy_of_hitOf_some h
  unfold hitOf at h
  unfold chainGemini
  rcases rG with u | e | e
  · rcases u with _ | u
    · simp [hk] at h
    · by_cases hu : u = "" <;> simp [hk, hu] at h
      subst h; simp [hk]
  · simp [hk] at h
  · simp [hk] at h

/-- The Gemini block when Gemini contributes no text: `aiSummary` stays
falsy, and Gemini was fetched iff its key is configured. -/
theorem chainGemini_miss {env : Env} {rG : ProviderResponse}
    (h : hitOf env.googleApiKey rG = none) :
    jsTruthy (chainGemini env rG).aiSummary = false ∧
      (chainGemini env rG).calls =
        (if jsTruthy env.googleApiKey then [Provider.gemini] else []) := by
  unfold hitOf at h
  unfold chainGemini
  by_cases hk : jsTruthy env.googleApiKey
  · rcases rG with u | e | e
    · rcases u with _ | u
      · simp [hk]
      · by_cases hu : u = "" <;> simp [hk, hu] at h ⊢
    · simp [hk]
    · simp [hk]
  · simp [hk]

/-- The OpenAI block is skipped once Gemini produced a non-empty text. -/
theorem chainOpenai_of_hit_g {env : Env} {rG : ProviderResponse} {t : String}
    (h : hitOf env.googleApiKey rG = some t) (rO : ProviderResponse) :
    chainOpenai env rG rO = ⟨some t, "Google Gemini", [Provider.gemini]⟩ := by
  have ht := hitOf_ne_empty h
  unfold chainOpenai
  rw [chainGemini_hit h]
  simp [jsTruthy_some_ne ht]

/-- The OpenAI block on a configured, non-empty success after a Gemini miss. -/
theorem chainOpenai_hit_o {env : Env} {rG rO : ProviderResponse} {t : String}
    (h1 : hitOf env.googleApiKey rG = none)
    (h2 : hitOf env.openaiApiKey rO = some t) :
    chainOpenai env rG rO =
      ⟨some t, "OpenAI",
        (if jsTruthy env.googleApiKey then [Provider.gemini] else [])
          ++ [Provider.openai]⟩ := by
  obtain ⟨hfal, hcalls⟩ := chainGemini_miss h1
  have hk := jsTruthy_of_hitOf_some h2
  unfold hitOf at h2
  unfold chainOpenai
  rcases rO with u | e | e
  · rcases u with _ | u
    · simp [hk] at h2
    · by_cases hu : u = "" <;> simp [hk, hu] at h2
      subst h2
      simp [hfal, hk, hcalls]
  · simp [hk] at h2
  · simp [hk] at h2

/-- The OpenAI block when neither Gemini nor OpenAI contributes a text. -/
theorem chainOpenai_miss {env : Env} {rG rO : ProviderResponse}
    (h1 : hitOf env.googleApiKey rG = none)
    (h2 : hitOf env.openaiApiKey rO = none) :
    jsTruthy (chainOpenai env rG rO).aiSummary = false ∧
      (chainOpenai env rG rO).calls =
        (if jsTruthy env.googleApiKey then [Provider.gemini] else [])
          ++ (if jsTruthy env.openaiApiKey then [Provider.openai] else []) := by
  obtain ⟨hfal, hcalls⟩ := chainGemini_miss h1
  unfold hitOf at h2
  unfold chainOpenai
  by_cases hk : jsTruthy env.openaiApiKey
  · rcases rO with u | e | e
    · rcases u with _ | u
      · simp [hfal, hk, hcalls]
      · by_cases hu : u = "" <;> simp [hk, hu] at h2 ⊢
        simp [hfal, hcalls]
    · simp [hfal, hk, hcalls]
    · simp [hfal, hk, hcalls]
  · simp [hfal, hk, hcalls]

/-- The Groq block is skipped once an earlier provider produced a non-empty
text (here: Gemini). -/
theorem runChain_of_hit_g {env : Env} {rG : ProviderResponse} {t : String}
    (h : hitOf env.googleApiKey rG = some t) (rO rQ : ProviderResponse) :
    runChain env rG rO rQ = ⟨some t, "Google Gemini", [Provider.gemini]⟩ := by
  have ht := hitOf_ne_empty h
  unfold runChain
  rw [chainOpenai_of_hit_g h rO]
  simp [jsTruthy_some_ne ht]

/-- The whole chain when Gemini misses and OpenAI hits. -/
theorem runChain_hit_o {env : Env} {rG rO : ProviderResponse} {t : String}
    (h1 : hitOf env.googleApiKey rG = none)
    (h2 : hitOf env.openaiApiKey rO = some t) (rQ : ProviderResponse) :
    runChain env rG rO rQ =
      ⟨some t, "OpenAI",
        (if jsTruthy env.googleApiKey then [Provider.gemini] else [])
          ++ [Provider.openai]⟩ := by
  have ht := hitOf_ne_empty h2
  unfold runChain
  rw [chainOpenai_hit_o h1 h2]
  simp [jsTruthy_some_ne ht]

/-- The whole chain when Gemini and OpenAI miss and Groq hits. -/
theorem runChain_hit_q {env : Env} {rG rO rQ : ProviderResponse} {t : String}
    (h1 : hitOf env.googleApiKey rG = none)
    (h2 : hitOf env.openaiApiKey rO = none)
    (h3 : hitOf env.groqEffective rQ = some t) :
    runChain env rG rO rQ =
      ⟨some t, "Groq",
        (if jsTruthy env.googleApiKey then [Provider.gemini] else [])
          ++ (if jsTruthy env.openaiApiKey then [Provider.openai] else [])
          ++ [Provider.groq]⟩ := by
  obtain ⟨hfal, hcalls⟩ := chainOpenai_miss h1 h2
  have hk := jsTruthy_of_hitOf_some h3
  unfold hitOf at h3
  unfold runChain
  rcases rQ with u | e | e
  · rcases u with _ | u
    · simp [hk] at h3
    · by_cases hu : u = "" <;> simp [hk, hu] at h3
      subst h3
      simp [hfal, hk, hcalls]
  · simp [hk] at h3
  · simp [hk] at h3

/-- The whole chain when every configured provider misses: `aiSummary` stays
falsy, and exactly the configured prefix of the fallback order was fetched. -/
theorem runChain_miss {env : Env} {rG rO rQ : ProviderResponse}
    (h1 : hitOf env.googleApiKey rG = none)
    (h2 : hitOf env.openaiApiKey rO = none)
    (h3 : hitOf env.groqEffective rQ = none) :
    jsTruthy (runChain env rG rO rQ).aiSummary = false ∧
      (runChain env rG rO rQ).calls =
        (if jsTruthy env.googleApiKey then [Provider.gemini] else [])
          ++ (if jsTruthy env.openaiApiKey then [Provider.openai] else [])
          ++ (if jsTruthy env.groqEffective then [Provider.groq] else []) := by
  obtain ⟨hfal, hcalls⟩ := chainOpenai_miss h1 h2
  unfold hitOf at h3
  unfold runChain
  by_cases hk : jsTruthy env.groqEffective
  · rcases rQ with u | e | e
    · rcases u with _ | u
      · simp [hfal, hk, hcalls]
      · by_cases hu : u = "" <;> simp [hk, hu] at h3 ⊢
        simp [hfal, hcalls]
    · simp [hfal, hk, hcalls]
    · simp [hfal, hk, hcalls]
  · simp [hfal, hk, hcalls]

/-- The chain's result realizes `firstHit`: the first configured provider
with a non-empty text supplies `aiSummary` and `apiUsed`. -/
theorem runChain_of_firstHit {env : Env} {rG rO rQ : ProviderResponse}
    {n t : String} (h : firstHit env rG rO rQ = some (n, t)) :
    (runChain env rG rO rQ).aiSummary = some t
      ∧ (runChain env rG rO rQ).apiUsed = n ∧ t ≠ "" := by
  unfold firstHit at h
  cases h1 : hitOf env.googleApiKey rG with
  | some u =>
    rw [h1] at h
    rw [runChain_of_hit_g h1 rO rQ]
    have hu := hitOf_ne_empty h1
    simp only [Option.some.injEq, Prod.mk.injEq] at h
    exact ⟨by simp [h.2], by simp [h.1], h.2 ▸ hu⟩
  | none =>
    rw [h1] at h
    cases h2 : hitOf env.openaiApiKey rO with
    | some u =>
      rw [h2] at h
      rw [runChain_hit_o h1 h2 rQ]
      have hu := hitOf_ne_empty h2
      simp only [Option.some.injEq, Prod.mk.injEq] at h
      exact ⟨by simp [h.2], by simp [h.1], h.2 ▸ hu⟩
    | none =>
      rw [h2] at h
      cases h3 : hitOf env.groqEffective rQ with
      | some u =>
        rw [h3] at h
        rw [runChain_hit_q h1 h2 h3]
        have hu := hitOf_ne_empty h3
        simp only [Option.some.injEq, Prod.mk.injEq] at h
        exact ⟨by simp [h.2], by simp [h.1], h.2 ▸ hu⟩
      | none => rw [h3] at h; simp at h

/-- Which providers the chain fetches, as a closed formula: the configured
prefix of the priority order up to and including the first non-empty hit. -/
theorem runChain_calls_formula (env : Env) (rG rO rQ : ProviderResponse) :
    (runChain env rG rO rQ).calls =
      (if jsTruthy env.googleApiKey then [Provider.gemini] else [])
        ++ (if hitOf env.googleApiKey rG = none ∧ jsTruthy env.openaiApiKey then
              [Provider.openai] else [])
        ++ (if hitOf env.googleApiKey rG = none ∧ hitOf env.openaiApiKey rO = none
              ∧ jsTruthy env.groqEffective then [Provider.groq] else []) := by
  cases h1 : hitOf env.googleApiKey rG with
  | some t =>
    rw [runChain_of_hit_g h1 rO rQ]
    simp [jsTruthy_of_hitOf_some h1, h1]
  | none =>
    cases h2 : hitOf env.openaiApiKey rO with
    | some t =>
      rw [runChain_hit_o h1 h2 rQ]
      simp [h1, h2, jsTruthy_of_hitOf_some h2]
    | none =>
      cases h3 : hitOf env.groqEffective rQ with
      | some t =>
        rw [runChain_hit_q h1 h2 h3]
        simp [h1, h2, h3, jsTruthy_of_hitOf_some h3]
      | none =>
        rw [(runChain_miss h1 h2 h3).2]
        simp [h1, h2, h3]

/-- Three-way De Morgan step used on the handler's no-key guard. -/
theorem not3_false_of_or {a b c : Bool} (h : (a || b || c) = true) :
    (!a && !b && !c) = false := by
  cases a <;> cases b <;> cases c <;> simp_all

/-! ## Concrete fixtures for witnesses and counterexamples -/

/-- No provider credential configured. -/
def envNone : Env := ⟨none, none, none, none⟩

/-- Only the Gemini credential configured. -/
def envG : Env := ⟨some "g-key", none, none, none⟩

/-- Gemini and OpenAI credentials configured. -/
def envGO : Env := ⟨some "g-key", some "o-key", none, none⟩

/-- A stored transcript fixture. -/
def trFix : Transcript := ⟨"t1", "Alice: ship by Friday.", some "notes.txt", 0⟩

/-- A stored summary fixture linked to `trFix`. -/
def sumFix : Summary := ⟨"s1", "t1", "list action items", "- Ship by Friday", none, 0⟩

/-- A store holding `trFix` and `sumFix`. -/
def storeFix : MemStorage := ⟨[("t1", trFix)], [("s1", sumFix)], []⟩

/-! ## The claims -/

/-- Claim C1: for every call to `createSummary` (POST /summaries) where
`transcriptId` names an existing Transcript and at least one configured AI
provider returns a non-empty text, the call persists and returns a Summary
whose `transcriptId` equals the input `transcriptId`, whose `prompt` equals
the input prompt, whose `content` is the (first such) provider's non-empty
text, and whose `editedContent` is absent. -/
theorem claim_C1 (env : Env) (store : MemStorage) (body : SummariesRequestBody)
    (rG rO rQ : ProviderResponse) (freshId : String) (now : Nat)
    {tid p : String} {tr : Transcript}
    (htid : body.transcriptId = some tid) (htidNe : tid ≠ "")
    (hp : body.prompt = some p) (hpNe : p ≠ "")
    (htr : store.getTranscript tid = some tr)
    (hsucc : (hitOf env.googleApiKey rG).isSome ∨ (hitOf env.openaiApiKey rO).isSome
      ∨ (hitOf env.groqEffective rQ).isSome) :
    ∃ providerName text,
      firstHit env rG rO rQ = some (providerName, text) ∧ text ≠ "" ∧
      (postSummaries env store body rG rO rQ freshId now).response =
        ApiResult.ok ⟨freshId, tid, p, text, none, now⟩ ∧
      (postSummaries env store body rG rO rQ freshId now).store.getSummary freshId =
        some ⟨freshId, tid, p, text, none, now⟩ := by
  rcases hfh : firstHit env rG rO rQ with _ | ⟨name, text⟩
  · have hs := firstHit_isSome_of_any env rG rO rQ hsucc
    rw [hfh] at hs
    simp at hs
  · obtain ⟨hai, hapi, htne⟩ := runChain_of_firstHit hfh
    have hkeys := not3_false_of_or (anyKey_of_firstHit_some hfh)
    have h1 : jsTruthy body.transcriptId = true := by
      rw [htid]; exact jsTruthy_some_ne htidNe
    have h2 : jsTruthy body.prompt = true := by
      rw [hp]; exact jsTruthy_some_ne hpNe
    have hsum : jsTruthy (runChain env rG rO rQ).aiSummary = true := by
      rw [hai]; exact jsTruthy_some_ne htne
    refine ⟨name, text, rfl, htne, ?_, ?_⟩ <;>
      simp [postSummaries, htid, hp, jsTruthy_some_ne htidNe, jsTruthy_some_ne hpNe,
        htr, hkeys, hsum, hai, jsTruthy_some_ne htne, MemStorage.createSummary, MemStorage.getSummary,
        findById_mapSet_self, strOr, htne]

/-- Witness for C1: Gemini configured and returning a non-empty text on an
existing transcript. -/
theorem claim_C1_witness :
    ∃ providerName text,
      firstHit envG (ProviderResponse.ok (some "- Ship by Friday"))
          (ProviderResponse.ok none) (ProviderResponse.ok none) =
        some (providerName, text) ∧ text ≠ "" ∧
      (postSummaries envG storeFix ⟨some "t1", some "list action items"⟩
          (ProviderResponse.ok (some "- Ship by Friday")) (ProviderResponse.ok none)
          (ProviderResponse.ok none) "s9" 7).response =
        ApiResult.ok ⟨"s9", "t1", "list action items", text, none, 7⟩ ∧
      (postSummaries envG storeFix ⟨some "t1", some "list action items"⟩
          (ProviderResponse.ok (some "- Ship by Friday")) (ProviderResponse.ok none)
          (ProviderResponse.ok none) "s9" 7).store.getSummary "s9" =
        some ⟨"s9", "t1", "list action items", text, none, 7⟩ :=
  claim_C1 envG storeFix ⟨some "t1", some "list action items"⟩
    (ProviderResponse.ok (some "- Ship by Friday")) (ProviderResponse.ok none)
    (ProviderResponse.ok none) "s9" 7 rfl (by decide) rfl (by decide) rfl
    (Or.inl (by decide))

/-- Claim C2: the provider chain tries Gemini, then OpenAI, then Groq — each
fetched exactly when its credential is configured and no earlier provider has
produced a non-empty text (so the chain stops at the first non-empty result,
an empty or absent text counting as failure), never retrying a failed
provider (the fetched providers form a duplicate-free sublist of the priority
order); and whenever Gemini is configured but fails while OpenAI returns a
non-empty text, the result's provenance is OpenAI, Groq is never invoked, and
exactly Gemini then OpenAI were fetched. -/
theorem claim_C2 (env : Env) (rG rO rQ : ProviderResponse) :
    (runChain env rG rO rQ).calls =
        (if jsTruthy env.googleApiKey then [Provider.gemini] else [])
          ++ (if hitOf env.googleApiKey rG = none ∧ jsTruthy env.openaiApiKey then
                [Provider.openai] else [])
          ++ (if hitOf env.googleApiKey rG = none ∧ hitOf env.openaiApiKey rO = none
                ∧ jsTruthy env.groqEffective then [Provider.groq] else [])
      ∧ List.Sublist (runChain env rG rO rQ).calls
        [Provider.gemini, Provider.openai, Provider.groq]
      ∧ (∀ pr, pr ∈ (runChain env rG rO rQ).calls →
          jsTruthy (credentialOf env pr) = true)
      ∧ (runChain env rG rO rQ).calls.Nodup
      ∧ (jsTruthy env.googleApiKey = true → hitOf env.googleApiKey rG = none →
          ∀ t, hitOf env.openaiApiKey rO = some t →
            (runChain env rG rO rQ).apiUsed = "OpenAI"
              ∧ (runChain env rG rO rQ).aiSummary = some t
              ∧ Provider.groq ∉ (runChain env rG rO rQ).calls
              ∧ (runChain env rG rO rQ).calls = [Provider.gemini, Provider.openai]) := by
  have hf := runChain_calls_formula env rG rO rQ
  refine ⟨hf, ?_, ?_, ?_, ?_⟩
  · rw [hf]
    split_ifs <;> simp
  · intro pr hpr
    rw [hf] at hpr
    simp only [List.mem_append] at hpr
    rcases hpr with (hpr | hpr) | hpr
    · by_cases hg : jsTruthy env.googleApiKey
      · simp [hg] at hpr
        subst hpr
        simpa [credentialOf] using hg
      · simp [hg] at hpr
    · by_cases hc : hitOf env.googleApiKey rG = none ∧ jsTruthy env.openaiApiKey
      · simp [hc] at hpr
        subst hpr
        simpa [credentialOf] using hc.2
      · simp [hc] at hpr
    · by_cases hc : hitOf env.googleApiKey rG = none ∧ hitOf env.openaiApiKey rO = none
          ∧ jsTruthy env.groqEffective
      · simp [hc] at hpr
        subst hpr
        simpa [credentialOf] using hc.2.2
      · simp [hc] at hpr
  · rw [hf]
    split_ifs <;> simp
  · intro hg h1 t h2
    rw [runChain_hit_o h1 h2 rQ]
    simp [hg]

/-- Witness for C2: Gemini configured but failing with an HTTP error, OpenAI
configured and succeeding. -/
theorem claim_C2_witness :
    (runChain envGO (ProviderResponse.httpError "boom")
          (ProviderResponse.ok (some "B text")) (ProviderResponse.ok none)).apiUsed = "OpenAI"
      ∧ (runChain envGO (ProviderResponse.httpError "boom")
          (ProviderResponse.ok (some "B text")) (ProviderResponse.ok none)).aiSummary =
            some "B text"
      ∧ Provider.groq ∉ (runChain envGO (ProviderResponse.httpError "boom")
          (ProviderResponse.ok (some "B text")) (ProviderResponse.ok none)).calls
      ∧ (runChain envGO (ProviderResponse.httpError "boom")
          (ProviderResponse.ok (some "B text")) (ProviderResponse.ok none)).calls =
            [Provider.gemini, Provider.openai] :=
  (claim_C2 envGO (ProviderResponse.httpError "boom")
      (ProviderResponse.ok (some "B text")) (ProviderResponse.ok none)).2.2.2.2
    (by decide) (by decide) "B text" (by decide)

/-- Counterexample to C3 as stated: with the empty prompt, a request naming a
transcript that is not in the store is rejected as 400 "prompt is required"
by the field guard, not 404 "Transcript not found". -/
theorem claim_C3_counterexample :
    (postSummaries envNone MemStorage.empty ⟨some "missing", some ""⟩
        (ProviderResponse.ok none) (ProviderResponse.ok none) (ProviderResponse.ok none)
        "s9" 0).response = ApiResult.err 400 "prompt is required"
      ∧ (postSummaries envNone MemStorage.empty ⟨some "missing", some ""⟩
        (ProviderResponse.ok none) (ProviderResponse.ok none) (ProviderResponse.ok none)
        "s9" 0).response ≠ ApiResult.err 404 "Transcript not found" := by
  exact ⟨by decide, by decide⟩

/-- Claim C3 (amended): for every non-empty prompt and non-empty
`transcriptId` not present in the Record Store, `createSummary` fails with
404 "Transcript not found", performs no AI provider call, and leaves the
store unchanged. -/
theorem claim_C3 (env : Env) (store : MemStorage) (body : SummariesRequestBody)
    (rG rO rQ : ProviderResponse) (freshId : String) (now : Nat)
    {tid p : String}
    (htid : body.transcriptId = some tid) (htidNe : tid ≠ "")
    (hp : body.prompt = some p) (hpNe : p ≠ "")
    (habs : store.getTranscript tid = none) :
    (postSummaries env store body rG rO rQ freshId now).response =
        ApiResult.err 404 "Transcript not found"
      ∧ (postSummaries env store body rG rO rQ freshId now).calls = []
      ∧ (postSummaries env store body rG rO rQ freshId now).store = store := by
  refine ⟨?_, ?_, ?_⟩ <;>
    simp [postSummaries, htid, hp, jsTruthy_some_ne htidNe, jsTruthy_some_ne hpNe, habs]

/-- Witness for C3 (amended): an unknown id against the empty store. -/
theorem claim_C3_witness :
    (postSummaries envNone MemStorage.empty ⟨some "missing", some "list actions"⟩
        (ProviderResponse.ok none) (ProviderResponse.ok none) (ProviderResponse.ok none)
        "s9" 0).response = ApiResult.err 404 "Transcript not found"
      ∧ (postSummaries envNone MemStorage.empty ⟨some "missing", some "list actions"⟩
        (ProviderResponse.ok none) (ProviderResponse.ok none) (ProviderResponse.ok none)
        "s9" 0).calls = []
      ∧ (postSummaries envNone MemStorage.empty ⟨some "missing", some "list actions"⟩
        (ProviderResponse.ok none) (ProviderResponse.ok none) (ProviderResponse.ok none)
        "s9" 0).store = MemStorage.empty :=
  claim_C3 envNone MemStorage.empty ⟨some "missing", some "list actions"⟩
    (ProviderResponse.ok none) (ProviderResponse.ok none) (ProviderResponse.ok none)
    "s9" 0 rfl (by decide) rfl (by decide) rfl

/-- Claim C4: if zero AI provider credentials are configured, `createSummary`
on an existing transcript fails with the distinct no-key-configured 500
message — not the all-providers-failed message — and fetches no provider. -/
theorem claim_C4 (env : Env) (store : MemStorage) (body : SummariesRequestBody)
    (rG rO rQ : ProviderResponse) (freshId : String) (now : Nat)
    {tid p : String} {tr : Transcript}
    (hg : jsTruthy env.googleApiKey = false)
    (ho : jsTruthy env.openaiApiKey = false)
    (hq : jsTruthy env.groqEffective = false)
    (htid : body.transcriptId = some tid) (htidNe : tid ≠ "")
    (hp : body.prompt = some p) (hpNe : p ≠ "")
    (htr : store.getTranscript tid = some tr) :
    (postSummaries env store body rG rO rQ freshId now).response =
        ApiResult.err 500
          "No AI API key configured (GOOGLE_API_KEY, OPENAI_API_KEY, or GROQ_API_KEY required)"
      ∧ (postSummaries env store body rG rO rQ freshId now).response ≠
        ApiResult.err 500 "Failed to generate summary with available AI services"
      ∧ (postSummaries env store body rG rO rQ freshId now).calls = []
      ∧ (postSummaries env store body rG rO rQ freshId now).store = store := by
  have hcalls : (runChain env rG rO rQ).calls = [] := by
    rw [runChain_calls_formula]
    simp [hg, ho, hq]
  refine ⟨?_, ?_, ?_, ?_⟩ <;>
    simp [postSummaries, htid, hp, jsTruthy_some_ne htidNe, jsTruthy_some_ne hpNe,
      htr, hg, ho, hq, hcalls]

/-- Witness for C4: no key configured, transcript present. -/
theorem claim_C4_witness :
    (postSummaries envNone storeFix ⟨some "t1", some "list actions"⟩
        (ProviderResponse.ok (some "text")) (ProviderResponse.ok (some "text"))
        (ProviderResponse.ok (some "text")) "s9" 0).response =
      ApiResult.err 500
        "No AI API key configured (GOOGLE_API_KEY, OPENAI_API_KEY, or GROQ_API_KEY required)"
      ∧ (postSummaries envNone storeFix ⟨some "t1", some "list actions"⟩
        (ProviderResponse.ok (some "text")) (ProviderResponse.ok (some "text"))
        (ProviderResponse.ok (some "text")) "s9" 0).response ≠
      ApiResult.err 500 "Failed to generate summary with available AI services"
      ∧ (postSummaries envNone storeFix ⟨some "t1", some "list actions"⟩
        (ProviderResponse.ok (some "text")) (ProviderResponse.ok (some "text"))
        (ProviderResponse.ok (some "text")) "s9" 0).calls = []
      ∧ (postSummaries envNone storeFix ⟨some "t1", some "list actions"⟩
        (ProviderResponse.ok (some "text")) (ProviderResponse.ok (some "text"))
        (ProviderResponse.ok (some "text")) "s9" 0).store = storeFix :=
  claim_C4 envNone storeFix ⟨some "t1", some "list actions"⟩
    (ProviderResponse.ok (some "text")) (ProviderResponse.ok (some "text"))
    (ProviderResponse.ok (some "text")) "s9" 0 rfl rfl rfl rfl (by decide) rfl
    (by decide) rfl

/-- An email body whose recipients string is a JSON array holding one
non-address string. -/
def bodyBadAddr : InsertEmailShare :=
  ⟨"s1", "[\"not-an-email\"]", "Minutes", none, none⟩

/-- A well-formed email body addressed to one recipient. -/
def bodyGood : InsertEmailShare :=
  ⟨"s1", "[\"a@x.com\"]", "Minutes", some "hello", some true⟩

/-- Counterexample to C5 as stated: `["not-an-email"]` is not a well-formed
list of addresses (no `@`), yet the route does not answer 400
"Invalid recipients" — it calls the mail provider once. -/
theorem claim_C5_counterexample :
    (postEmailSend storeFix bodyBadAddr none "e1" 3).response ≠
        ApiResult.err 400 "Invalid recipients"
      ∧ mailCallCount (postEmailSend storeFix bodyBadAddr none "e1" 3).events = 1
      ∧ strContains "not-an-email" "@" = false := by
  exact ⟨by decide, by decide, by decide⟩

/-- Claim C5 (amended): the email route validates in order — 404
"Summary not found" if the summary is absent, then 404 "Transcript not found"
if its linked transcript is absent, then it parses `recipients` as JSON: an
unparseable string lands in the catch-all as a generic 500, and a parsed
value that is not an array or is an empty array yields 400
"Invalid recipients"; element addresses are never validated. In every one of
these failure cases the mail provider is not called and the store is
unchanged. -/
theorem claim_C5 (store : MemStorage) (body : InsertEmailShare)
    (mailError : Option String) (freshId : String) (now : Nat) :
    (store.getSummary body.summaryId = none →
        postEmailSend store body mailError freshId now =
          ⟨ApiResult.err 404 "Summary not found", store, []⟩)
      ∧ (∀ s, store.getSummary body.summaryId = some s →
          store.getTranscript s.transcriptId = none →
          postEmailSend store body mailError freshId now =
            ⟨ApiResult.err 404 "Transcript not found", store, []⟩)
      ∧ (∀ s tr, store.getSummary body.summaryId = some s →
          store.getTranscript s.transcriptId = some tr →
          jsonParse body.recipients = none →
          postEmailSend store body mailError freshId now =
            ⟨ApiResult.err 500 "Failed to send email", store, []⟩)
      ∧ (∀ s tr v, store.getSummary body.summaryId = some s →
          store.getTranscript s.transcriptId = some tr →
          jsonParse body.recipients = some v →
          isNonEmptyArray v = false →
          postEmailSend store body mailError freshId now =
            ⟨ApiResult.err 400 "Invalid recipients", store, []⟩) := by
  refine ⟨?_, ?_, ?_, ?_⟩
  · intro hs
    simp [postEmailSend, hs]
  · intro s hs htr
    simp [postEmailSend, hs, htr]
  · intro s tr hs htr hj
    simp [postEmailSend, hs, htr, hj]
  · intro s tr v hs htr hj hv
    rcases v with _ | b | n | t | vs | fs <;>
      simp_all [postEmailSend, isNonEmptyArray]

/-- An email body whose recipients string is the empty JSON array. -/
def bodyEmptyRec : InsertEmailShare := ⟨"s1", "[]", "Minutes", none, none⟩

/-- Witness for C5 (amended): an empty recipients array yields 400
"Invalid recipients" with no mail call. -/
theorem claim_C5_witness :
    postEmailSend storeFix bodyEmptyRec none "e1" 0 =
      ⟨ApiResult.err 400 "Invalid recipients", storeFix, []⟩ :=
  (claim_C5 storeFix bodyEmptyRec none "e1" 0).2.2.2 sumFix trFix
    (JsValue.jarr []) rfl rfl rfl rfl

/-- Claim C6: when the email route passes validation, the mail call's body is
the caller's message followed by a separator when a (non-empty) message is
present, then the header "MEETING SUMMARY" and the effective summary content
(`editedContent` if set and non-empty, else `content`); and when
`includeTranscript` is true and the transcript content is non-empty, the
transcript is attached as text/plain under its recorded filename, with
"transcript.txt" as the default name. -/
theorem claim_C6 (store : MemStorage) (body : InsertEmailShare)
    (mailError : Option String) (freshId : String) (now : Nat)
    {s : Summary} {tr : Transcript} {v : JsValue}
    (hs : store.getSummary body.summaryId = some s)
    (htr : store.getTranscript s.transcriptId = some tr)
    (hj : jsonParse body.recipients = some v)
    (hv : isNonEmptyArray v = true) :
    (postEmailSend store body mailError freshId now).events.head? =
      some (Ev.mailSend
        { sendTo := v
          subject := body.subject
          text :=
            (match body.message with
             | some m => if m = "" then "" else m ++ "\n\n---\n\n"
             | none => "")
              ++ "MEETING SUMMARY\n\n"
              ++ (match s.editedContent with
                  | some e => if e = "" then s.content else e
                  | none => s.content)
          attachments :=
            if body.includeTranscript = some true ∧ tr.content ≠ "" then
              [{ filename :=
                   (match tr.filename with
                    | some f => if f = "" then "transcript.txt" else f
                    | none => "transcript.txt")
                 content := tr.content
                 type := "text/plain" }]
            else [] }) := by
  obtain ⟨vs, rfl, hlen⟩ : ∃ vs, v = JsValue.jarr vs ∧ vs.length ≠ 0 := by
    rcases v with _ | b | n | t | vs | fs
    · exact Bool.noConfusion hv
    · exact Bool.noConfusion hv
    · exact Bool.noConfusion hv
    · exact Bool.noConfusion hv
    · have hv0 : (vs.length != 0) = true := hv
      simp only [bne_iff_ne, ne_eq] at hv0
      exact ⟨vs, rfl, hv0⟩
    · exact Bool.noConfusion hv
  rcases hmsg : body.message with _ | m <;>
    rcases hed : s.editedContent with _ | e <;>
      rcases hit : body.includeTranscript with _ | b <;>
        (try cases b) <;>
          rcases hfn : tr.filename with _ | f <;>
            cases mailError <;>
              simp [postEmailSend, hs, htr, hj, hlen, hmsg, hed, hit, hfn,
                effectiveContent, jsOr, strOr, jsTruthy]

/-- Witness for C6: a message, an unedited summary, `includeTranscript` on,
and a recorded filename. -/
theorem claim_C6_witness :
    (postEmailSend storeFix bodyGood none "e1" 0).events.head? =
      some (Ev.mailSend
        { sendTo := JsValue.jarr [JsValue.jstr "a@x.com"]
          subject := bodyGood.subject
          text :=
            (match bodyGood.message with
             | some m => if m = "" then "" else m ++ "\n\n---\n\n"
             | none => "")
              ++ "MEETING SUMMARY\n\n"
              ++ (match sumFix.editedContent with
                  | some e => if e = "" then sumFix.content else e
                  | none => sumFix.content)
          attachments :=
            if bodyGood.includeTranscript = some true ∧ trFix.content ≠ "" then
              [{ filename :=
                   (match trFix.filename with
                    | some f => if f = "" then "transcript.txt" else f
                    | none => "transcript.txt")
                 content := trFix.content
                 type := "text/plain" }]
            else [] }) :=
  claim_C6 storeFix bodyGood none "e1" 0 rfl rfl rfl rfl

/-- Claim C7: the mail call always precedes the persisting of an EmailShare;
a share record is persisted only when the mail provider reported success; a
mail-provider error surfaces as 500 "Resend error: ..." with the share map
untouched; and every failing response leaves the share map untouched. -/
theorem claim_C7 (store : MemStorage) (body : InsertEmailShare)
    (mailError : Option String) (freshId : String) (now : Nat) :
    (∀ i, Ev.persistShare i ∈ (postEmailSend store body mailError freshId now).events →
        mailError = none
          ∧ ∃ e, (postEmailSend store body mailError freshId now).events =
              [Ev.mailSend e, Ev.persistShare i])
      ∧ (∀ m, mailError = some m →
          (∃ e, Ev.mailSend e ∈ (postEmailSend store body mailError freshId now).events) →
          (postEmailSend store body mailError freshId now).response =
              ApiResult.err 500 ("Resend error: " ++ m)
            ∧ (postEmailSend store body mailError freshId now).store.emailShares =
              store.emailShares)
      ∧ (∀ c msg, (postEmailSend store body mailError freshId now).response =
            ApiResult.err c msg →
          (postEmailSend store body mailError freshId now).store.emailShares =
            store.emailShares) := by
  unfold postEmailSend
  cases hs : MemStorage.getSummary store body.summaryId
  case none => simp
  case some s =>
    cases htr : MemStorage.getTranscript store s.transcriptId
    case none => simp [htr]
    case some tr =>
      cases hj : jsonParse body.recipients
      case none => simp [htr, hj]
      case some v =>
        rcases v with _ | b | n | t | vs | fs
        · simp [htr, hj]
        · simp [htr, hj]
        · simp [htr, hj]
        · simp [htr, hj]
        · by_cases hlen : vs.length = 0
          · simp [htr, hj, hlen]
          · cases mailError <;> simp [htr, hj, hlen]
        · simp [htr, hj]

/-- Witness for C7: a mail-provider error on a valid request leaves the
share map untouched. -/
theorem claim_C7_witness :
    (postEmailSend storeFix bodyGood (some "down") "e1" 0).store.emailShares =
      storeFix.emailShares :=
  (claim_C7 storeFix bodyGood (some "down") "e1" 0).2.2 500 "Resend error: down"
    (by decide)

/-- An empty `firstHit` means every provider attempt missed. -/
theorem hitOf_all_none_of_firstHit_none {env : Env} {rG rO rQ : ProviderResponse}
    (h : firstHit env rG rO rQ = none) :
    hitOf env.googleApiKey rG = none ∧ hitOf env.openaiApiKey rO = none
      ∧ hitOf env.groqEffective rQ = none := by
  unfold firstHit at h
  cases h1 : hitOf env.googleApiKey rG <;> rw [h1] at h
  · cases h2 : hitOf env.openaiApiKey rO <;> rw [h2] at h
    · cases h3 : hitOf env.groqEffective rQ <;> rw [h3] at h
      · exact ⟨rfl, rfl, rfl⟩
      · simp at h
    · simp at h
  · simp at h

/-- Counterexample to C8 as stated: with only Gemini configured and Gemini
failing with upstream text "quota exceeded", the 500 body is the fixed
generic message, which contains neither the upstream text nor the provider
name — nothing is forwarded. -/
theorem claim_C8_counterexample :
    (postSummaries envG storeFix ⟨some "t1", some "list action items"⟩
        (ProviderResponse.httpError "quota exceeded") (ProviderResponse.ok none)
        (ProviderResponse.ok none) "s9" 7).response =
      ApiResult.err 500 "Failed to generate summary with available AI services"
      ∧ strContains "Failed to generate summary with available AI services"
          "quota exceeded" = false
      ∧ strContains "Failed to generate summary with available AI services"
          "Gemini" = false := by
  exact ⟨by decide, by decide, by decide⟩

/-- Claim C8 (amended): a mail-provider failure is surfaced as 500 with the
upstream message forwarded ("Resend error: ..."); an AI-chain failure is
surfaced as the fixed generic 500 message "Failed to generate summary with
available AI services", which identifies no provider and forwards no upstream
text (those go only to server logs). -/
theorem claim_C8 :
    (∀ (store : MemStorage) (body : InsertEmailShare) (m freshId : String) (now : Nat)
        (s : Summary) (tr : Transcript) (v : JsValue),
        store.getSummary body.summaryId = some s →
        store.getTranscript s.transcriptId = some tr →
        jsonParse body.recipients = some v →
        isNonEmptyArray v = true →
        (postEmailSend store body (some m) freshId now).response =
          ApiResult.err 500 ("Resend error: " ++ m))
      ∧ (∀ (env : Env) (store : MemStorage) (body : SummariesRequestBody)
          (rG rO rQ : ProviderResponse) (freshId : String) (now : Nat)
          (tid p : String) (tr : Transcript),
          body.transcriptId = some tid → tid ≠ "" →
          body.prompt = some p → p ≠ "" →
          store.getTranscript tid = some tr →
          firstHit env rG rO rQ = none →
          (jsTruthy env.googleApiKey || jsTruthy env.openaiApiKey
            || jsTruthy env.groqEffective) = true →
          (postSummaries env store body rG rO rQ freshId now).response =
            ApiResult.err 500 "Failed to generate summary with available AI services")
      ∧ strContains "Failed to generate summary with available AI services"
          "Resend" = false := by
  refine ⟨?_, ?_, by decide⟩
  · intro store body m freshId now s tr v hs htr hj hv
    obtain ⟨vs, rfl, hlen⟩ : ∃ vs, v = JsValue.jarr vs ∧ vs.length ≠ 0 := by
      rcases v with _ | b | n | t | vs | fs
      · exact Bool.noConfusion hv
      · exact Bool.noConfusion hv
      · exact Bool.noConfusion hv
      · exact Bool.noConfusion hv
      · have hv0 : (vs.length != 0) = true := hv
        simp only [bne_iff_ne, ne_eq] at hv0
        exact ⟨vs, rfl, hv0⟩
      · exact Bool.noConfusion hv
    simp [postEmailSend, hs, htr, hj, hlen]
  · intro env store body rG rO rQ freshId now tid p tr htid htidNe hp hpNe htr hfh hor
    obtain ⟨h1, h2, h3⟩ := hitOf_all_none_of_firstHit_none hfh
    obtain ⟨hfal, hcalls⟩ := runChain_miss h1 h2 h3
    have hkeys := not3_false_of_or hor
    simp [postSummaries, htid, hp, jsTruthy_some_ne htidNe, jsTruthy_some_ne hpNe,
      htr, hkeys, hfal]

/-- Witness for C8 (amended): the mail side forwards "svc down"; the AI side,
with Gemini configured but failing, answers the generic message. -/
theorem claim_C8_witness :
    (postEmailSend storeFix bodyGood (some "svc down") "e1" 0).response =
        ApiResult.err 500 ("Resend error: " ++ "svc down")
      ∧ (postSummaries envG storeFix ⟨some "t1", some "list action items"⟩
          (ProviderResponse.exn "socket hang up") (ProviderResponse.ok none)
          (ProviderResponse.ok none) "s9" 7).response =
        ApiResult.err 500 "Failed to generate summary with available AI services" :=
  ⟨claim_C8.1 storeFix bodyGood "svc down" "e1" 0 sumFix trFix
      (JsValue.jarr [JsValue.jstr "a@x.com"]) rfl rfl rfl rfl,
    claim_C8.2.1 envG storeFix ⟨some "t1", some "list action items"⟩
      (ProviderResponse.exn "socket hang up") (ProviderResponse.ok none)
      (ProviderResponse.ok none) "s9" 7 "t1" "list action items" trFix rfl
      (by decide) rfl (by decide) rfl (by decide) (by decide)⟩

/-- Claim C9: for every stored summary, `editSummary(id, x)` (PATCH) followed
by `getSummary(id)` (GET) returns a Summary whose `editedContent` equals `x`
while `id`, `transcriptId`, `prompt`, `content`, and `createdAt` are
unchanged. -/
theorem claim_C9 (store : MemStorage) (id x : String) {s : Summary}
    (h : store.getSummary id = some s) :
    (patchSummaries store id (PatchField.strVal x)).fst =
        ApiResult.ok ⟨s.id, s.transcriptId, s.prompt, s.content, some x, s.createdAt⟩
      ∧ getSummaryRoute (patchSummaries store id (PatchField.strVal x)).snd id =
        ApiResult.ok ⟨s.id, s.transcriptId, s.prompt, s.content, some x, s.createdAt⟩ := by
  have h' : findById store.summaries id = some s := h
  refine ⟨?_, ?_⟩ <;>
    simp [patchSummaries, MemStorage.updateSummaryContent, MemStorage.getSummary,
      getSummaryRoute, h', findById_mapSet_self]

/-- Witness for C9: editing the stored fixture summary. -/
theorem claim_C9_witness :
    (patchSummaries storeFix "s1" (PatchField.strVal "- Ship (owner: Alice)")).fst =
        ApiResult.ok ⟨"s1", "t1", "list action items", "- Ship by Friday",
          some "- Ship (owner: Alice)", 0⟩
      ∧ getSummaryRoute
          (patchSummaries storeFix "s1" (PatchField.strVal "- Ship (owner: Alice)")).snd
          "s1" =
        ApiResult.ok ⟨"s1", "t1", "list action items", "- Ship by Friday",
          some "- Ship (owner: Alice)", 0⟩ :=
  claim_C9 storeFix "s1" "- Ship (owner: Alice)" rfl

/-- Claim C10: the PATCH route accepts any string for `editedContent`,
including the empty string, and rejects only non-string values with 400; and
once `editedContent` holds the empty string, the email route's effective
content falls back to the original `content` — an empty `editedContent`
behaves like an absent one. -/
theorem claim_C10 (store : MemStorage) (id : String) {s : Summary}
    (h : store.getSummary id = some s) :
    (∀ x, (patchSummaries store id (PatchField.strVal x)).fst =
        ApiResult.ok ⟨s.id, s.transcriptId, s.prompt, s.content, some x, s.createdAt⟩)
      ∧ (patchSummaries store id PatchField.nonString).fst =
          ApiResult.err 400 "editedContent must be a string"
      ∧ effectiveContent ⟨s.id, s.transcriptId, s.prompt, s.content, some "", s.createdAt⟩ =
          s.content
      ∧ effectiveContent ⟨s.id, s.transcriptId, s.prompt, s.content, none, s.createdAt⟩ =
          s.content := by
  have h' : findById store.summaries id = some s := h
  refine ⟨?_, rfl, rfl, rfl⟩
  intro x
  simp [patchSummaries, MemStorage.updateSummaryContent, h']

/-- Witness for C10: the empty-string edit on the fixture store. -/
theorem claim_C10_witness :
    (patchSummaries storeFix "s1" (PatchField.strVal "")).fst =
        ApiResult.ok ⟨"s1", "t1", "list action items", "- Ship by Friday", some "", 0⟩
      ∧ (patchSummaries storeFix "s1" PatchField.nonString).fst =
          ApiResult.err 400 "editedContent must be a string"
      ∧ effectiveContent ⟨"s1", "t1", "list action items", "- Ship by Friday", some "", 0⟩ =
          "- Ship by Friday" :=
  ⟨(claim_C10 storeFix "s1" rfl).1 "",
    (claim_C10 storeFix "s1" rfl).2.1,
    (claim_C10 storeFix "s1" rfl).2.2.1⟩
